import Mathlib

/-!
Verification of the batch pose-transfer orchestration in `src/app.py`
(`approve_edit` and, for comparison, `api_pose_transfer`).

The embedding models:
  * JSON values (`Json`) with Python-dict field lookup / assignment semantics,
  * the per-item workflow-template binding performed at app.py lines 316-324
    (`configureWorkflow`): a deep copy of the template followed by five
    key-indexed assignments,
  * the submission loop (app.py lines 316-336), the bounded completion poller
    (lines 347-388) and the download loop (lines 350-424),
  * the surrounding `approve_edit` endpoint logic (edit-status update, the
    zero-sibling short-circuit, batch record creation, final status update),
    with external effects (remote shell, HTTP, randomness, blob store)
    supplied by an `Env` of oracles.
-/

set_option autoImplicit false

namespace AtlasReach

/-- JSON values as manipulated by `json.load` / `json.dumps` in app.py.
Objects are association lists, preserving insertion order as Python dicts do. -/
inductive Json where
  | str (s : String)
  | num (n : Int)
  | bool (b : Bool)
  | null
  | arr (elems : List Json)
  | obj (fields : List (String × Json))

/-- Python `d.get(k)` / `d[k]` read on a dict: first binding of the key wins
(association lists built by `setField` keep keys unique anyway). -/
def lookupField : List (String × Json) → String → Option Json
  | [], _ => none
  | (k', v') :: rest, k => if k' = k then some v' else lookupField rest k

/-- Python `d[k] = v` on a dict: overwrite the existing binding, or append a
new one when the key is absent (dict assignment never fails). -/
def setField : List (String × Json) → String → Json → List (String × Json)
  | [], k, v => [(k, v)]
  | (k', v') :: rest, k, v =>
      if k' = k then (k, v) :: rest else (k', v') :: setField rest k v

theorem lookupField_setField_self (fs : List (String × Json)) (k : String) (v : Json) :
    lookupField (setField fs k v) k = some v := by
  induction fs with
  | nil => simp [setField, lookupField]
  | cons hd tl ih =>
      obtain ⟨k', v'⟩ := hd
      by_cases h : k' = k
      · simp [setField, lookupField, h]
      · simp [setField, lookupField, h, ih]

theorem lookupField_setField_ne (fs : List (String × Json)) (k k' : String) (v : Json)
    (h : k' ≠ k) : lookupField (setField fs k v) k' = lookupField fs k' := by
  have hk : ¬(k = k') := fun hh => h hh.symm
  induction fs with
  | nil => simp [setField, lookupField, hk]
  | cons hd tl ih =>
      obtain ⟨k₀, v₀⟩ := hd
      by_cases h0 : k₀ = k
      · subst h0
        simp [setField, lookupField, hk]
      · by_cases h1 : k₀ = k'
        · simp [setField, lookupField, h0, h1, h, hk]
        · simp [setField, lookupField, h0, h1, ih]

mutual
/-- `json.loads(json.dumps(w))` (app.py line 317): a deep, structure-preserving
copy of the value. On immutable values this is the identity; it is what makes
each loop iteration operate on storage independent of the template. -/
def deepCopy : Json → Json
  | .str s => .str s
  | .num n => .num n
  | .bool b => .bool b
  | .null => .null
  | .arr elems => .arr (deepCopyList elems)
  | .obj fields => .obj (deepCopyFields fields)

def deepCopyList : List Json → List Json
  | [] => []
  | x :: xs => deepCopy x :: deepCopyList xs

def deepCopyFields : List (String × Json) → List (String × Json)
  | [] => []
  | (k, v) :: fs => (k, deepCopy v) :: deepCopyFields fs
end

theorem lookupField_deepCopyFields (fs : List (String × Json)) (k : String) :
    lookupField (deepCopyFields fs) k = Option.map deepCopy (lookupField fs k) := by
  induction fs with
  | nil => simp [deepCopyFields, lookupField]
  | cons hd tl ih =>
      obtain ⟨k', v'⟩ := hd
      by_cases h : k' = k
      · simp [deepCopyFields, lookupField, h]
      · simp [deepCopyFields, lookupField, h, ih]

/-- Read `workflow[node]["inputs"][slot]` without side effects, as an Option. -/
def getNodeInput (w : Json) (node slot : String) : Option Json :=
  match w with
  | .obj fields =>
      match lookupField fields node with
      | some (.obj nodeFields) =>
          match lookupField nodeFields "inputs" with
          | some (.obj inputFields) => lookupField inputFields slot
          | _ => none
      | _ => none
  | _ => none

/-- Python `workflow[node]["inputs"][slot] = v` (app.py lines 320-324).
Reading `workflow[node]` raises `KeyError` when the node key is absent, and
reading/indexing a non-dict raises `TypeError`; both propagate to the outer
`except` handler.  The final assignment into the inputs dict itself never
fails: an absent slot key is silently created. -/
def setNodeInput (w : Json) (node slot : String) (v : Json) : Except String Json :=
  match w with
  | .obj fields =>
      match lookupField fields node with
      | some (.obj nodeFields) =>
          match lookupField nodeFields "inputs" with
          | some (.obj inputFields) =>
              .ok (.obj (setField fields node
                (.obj (setField nodeFields "inputs"
                  (.obj (setField inputFields slot v))))))
          | some _ => .error ("TypeError: inputs of node " ++ node)
          | none => .error ("KeyError: inputs of node " ++ node)
      | some _ => .error ("TypeError: node " ++ node)
      | none => .error ("KeyError: " ++ node)
  | _ => .error "TypeError: workflow"

theorem setNodeInput_get_self {w w' : Json} {node slot : String} {v : Json}
    (h : setNodeInput w node slot v = .ok w') :
    getNodeInput w' node slot = some v := by
  unfold setNodeInput at h
  split at h <;> try exact Except.noConfusion h
  split at h <;> try exact Except.noConfusion h
  split at h <;> try exact Except.noConfusion h
  injection h with h
  subst h
  simp [getNodeInput, lookupField_setField_self]

theorem setNodeInput_get_other {w w' : Json} {node slot : String} {v : Json}
    (h : setNodeInput w node slot v = .ok w') {node' slot' : String}
    (hne : node' ≠ node) :
    getNodeInput w' node' slot' = getNodeInput w node' slot' := by
  unfold setNodeInput at h
  split at h <;> try exact Except.noConfusion h
  split at h <;> try exact Except.noConfusion h
  split at h <;> try exact Except.noConfusion h
  injection h with h
  subst h
  simp [getNodeInput, lookupField_setField_ne _ _ _ _ hne]

/-- The per-item values written into the workflow template by the loop body at
app.py lines 316-324: the shared model-image filename, the shared remote pose
folder, the 0-based loop index `pose_index`, the fresh random seed, and the
batch identifier used for the output filename prefix. -/
structure BatchBindings where
  modelFilename : String
  poseFolder : String
  poseIndex : Nat
  seed : Int
  batchId : String

/-- app.py lines 317-324: `workflow = json.loads(json.dumps(workflow_template))`
followed by the five key-indexed assignments
  `workflow["67"]["inputs"]["unet_name"]  = "qwen_image_edit_2509_fp8_e4m3fn.safetensors"`
  `workflow["78"]["inputs"]["image"]      = model_filename`
  `workflow["179"]["inputs"]["image"]     = f"{pose_folder}/pose{pose_index + 1}.jpg"`
  `workflow["74"]["inputs"]["seed"]       = random.randint(...)`
  `workflow["94"]["inputs"]["filename_prefix"] = f"{batch_id}_pose{pose_index + 1}"`.
The first raised `KeyError`/`TypeError` aborts (propagates to the outer
`except` of `approve_edit`). -/
def configureWorkflow (template : Json) (b : BatchBindings) : Except String Json :=
  match setNodeInput (deepCopy template) "67" "unet_name"
      (.str "qwen_image_edit_2509_fp8_e4m3fn.safetensors") with
  | .error e => .error e
  | .ok w1 =>
  match setNodeInput w1 "78" "image" (.str b.modelFilename) with
  | .error e => .error e
  | .ok w2 =>
  match setNodeInput w2 "179" "image"
      (.str (b.poseFolder ++ "/pose" ++ toString (b.poseIndex + 1) ++ ".jpg")) with
  | .error e => .error e
  | .ok w3 =>
  match setNodeInput w3 "74" "seed" (.num b.seed) with
  | .error e => .error e
  | .ok w4 =>
  match setNodeInput w4 "94" "filename_prefix"
      (.str (b.batchId ++ "_pose" ++ toString (b.poseIndex + 1))) with
  | .error e => .error e
  | .ok w5 => .ok w5

theorem configureWorkflow_binds {template : Json} {b : BatchBindings} {w : Json}
    (h : configureWorkflow template b = .ok w) :
    getNodeInput w "78" "image" = some (.str b.modelFilename) ∧
    getNodeInput w "179" "image" =
      some (.str (b.poseFolder ++ "/pose" ++ toString (b.poseIndex + 1) ++ ".jpg")) ∧
    getNodeInput w "74" "seed" = some (.num b.seed) ∧
    getNodeInput w "94" "filename_prefix" =
      some (.str (b.batchId ++ "_pose" ++ toString (b.poseIndex + 1))) := by
  unfold configureWorkflow at h
  cases h1 : setNodeInput (deepCopy template) "67" "unet_name"
      (.str "qwen_image_edit_2509_fp8_e4m3fn.safetensors") with
  | error e => simp only [h1] at h; exact Except.noConfusion h
  | ok w1 =>
  simp only [h1] at h
  cases h2 : setNodeInput w1 "78" "image" (.str b.modelFilename) with
  | error e => simp only [h2] at h; exact Except.noConfusion h
  | ok w2 =>
  simp only [h2] at h
  cases h3 : setNodeInput w2 "179" "image"
      (.str (b.poseFolder ++ "/pose" ++ toString (b.poseIndex + 1) ++ ".jpg")) with
  | error e => simp only [h3] at h; exact Except.noConfusion h
  | ok w3 =>
  simp only [h3] at h
  cases h4 : setNodeInput w3 "74" "seed" (.num b.seed) with
  | error e => simp only [h4] at h; exact Except.noConfusion h
  | ok w4 =>
  simp only [h4] at h
  cases h5 : setNodeInput w4 "94" "filename_prefix"
      (.str (b.batchId ++ "_pose" ++ toString (b.poseIndex + 1))) with
  | error e => simp only [h5] at h; exact Except.noConfusion h
  | ok w5 =>
  simp only [h5] at h
  injection h with h
  subst h
  refine ⟨?_, ?_, ?_, ?_⟩
  · rw [setNodeInput_get_other h5 (by decide), setNodeInput_get_other h4 (by decide),
        setNodeInput_get_other h3 (by decide)]
    exact setNodeInput_get_self h2
  · rw [setNodeInput_get_other h5 (by decide), setNodeInput_get_other h4 (by decide)]
    exact setNodeInput_get_self h3
  · rw [setNodeInput_get_other h5 (by decide)]
    exact setNodeInput_get_self h4
  · exact setNodeInput_get_self h5

/-- When the first bound node key (`"67"`) is absent from the template object,
the very first key-indexed assignment raises `KeyError` and the whole
instantiation fails, whatever the per-item bindings are. -/
theorem configureWorkflow_missing_node (fields : List (String × Json))
    (b : BatchBindings) (h : lookupField fields "67" = none) :
    configureWorkflow (.obj fields) b = .error ("KeyError: " ++ "67") := by
  have hset : setNodeInput (deepCopy (.obj fields)) "67" "unet_name"
      (.str "qwen_image_edit_2509_fp8_e4m3fn.safetensors") =
      .error ("KeyError: " ++ "67") := by
    have hd : deepCopy (.obj fields) = .obj (deepCopyFields fields) := by
      rw [deepCopy]
    have hl : lookupField (deepCopyFields fields) "67" = none := by
      rw [lookupField_deepCopyFields, h]; rfl
    rw [hd]
    simp [setNodeInput, hl]
  unfold configureWorkflow
  simp only [hset]

/-- One snapshotted sibling item, as recorded in `images_to_process`
(app.py line 245): `{'id': ..., 'url': local_path or image_url, 'order': ...}`. -/
structure Item where
  id : String
  url : String
  order : Nat

/-- Remote filename given to the pose reference at 0-based snapshot position
`idx` during the upload phase: `pose_filename = f"pose{idx + 1}.jpg"`
(app.py line 293). -/
def uploadedPoseName (idx : Nat) : String := "pose" ++ toString (idx + 1) ++ ".jpg"

/-- The upload phase from loop counter `idx` (app.py lines 284-299,
`for idx, img_data in enumerate(other_images.data)`): each item, in snapshot
order, is copied to `{pose_folder}/pose{idx + 1}.jpg` on the render host. -/
def uploadPosesFrom (poseFolder : String) : Nat → List Item → List (Item × String)
  | _, [] => []
  | idx, it :: rest =>
      (it, poseFolder ++ "/" ++ uploadedPoseName idx) ::
        uploadPosesFrom poseFolder (idx + 1) rest

/-- The full upload phase, starting at loop counter 0. -/
def uploadPoses (poseFolder : String) (items : List Item) : List (Item × String) :=
  uploadPosesFrom poseFolder 0 items

theorem uploadPosesFrom_getElem? (poseFolder : String) :
    ∀ (items : List Item) (s k : Nat),
    (uploadPosesFrom poseFolder s items)[k]? =
      (items[k]?).map (fun it => (it, poseFolder ++ "/" ++ uploadedPoseName (s + k))) := by
  intro items
  induction items with
  | nil => intro s k; simp [uploadPosesFrom]
  | cons hd tl ih =>
      intro s k
      cases k with
      | zero => simp [uploadPosesFrom]
      | succ k' =>
          have harith : s + 1 + k' = s + (k' + 1) := by omega
          simp only [uploadPosesFrom, List.getElem?_cons_succ, ih (s + 1) k', harith]

/-- Outcome of the job-submission POST for one item
(app.py lines 327-334): the request itself may raise (connection error or
`raise_for_status`), or return a JSON body with or without a `prompt_id`. -/
inductive SubmitOutcome where
  | httpError
  | okNoId
  | okId (promptId : String)

/-- What one status query observes (app.py lines 359-384): the ssh/curl/json
step may raise, the history may not show the job completed yet, or the job is
completed — carrying the first output-node filename when one exists. -/
inductive PollOutcome where
  | error
  | notComplete
  | complete (filename : Option String)

/-- Outcome of the per-item download-and-store block (app.py lines 393-424):
the HTTP download or the storage upload may raise (caught, item skipped). -/
inductive DownloadOutcome where
  | error
  | ok

/-- External collaborators of the batch run, as response oracles.
`setupError` collapses the shared setup (model download/upload, pose-folder
creation, pose uploads, template file read — app.py lines 253-308): any
exception there propagates identically to the outer handler.
`submit`, `poll` and `download` are indexed the way the code indexes the
corresponding calls: `submit` by snapshot position, `poll` by the index in
`prompt_ids` and the 1-based attempt number, `download` by the index in
`prompt_ids` and the requested filename. -/
structure Env where
  setupError : Option String
  seed : Nat → Int
  submit : Nat → SubmitOutcome
  poll : Nat → Nat → PollOutcome
  download : Nat → String → DownloadOutcome
  publicUrl : String → String

/-- Shared parameters of one batch run. -/
structure BatchParams where
  modelFilename : String
  poseFolder : String
  batchId : String

/-- The bindings for the item at snapshot position `k`. -/
def itemBindings (p : BatchParams) (env : Env) (k : Nat) : BatchBindings :=
  { modelFilename := p.modelFilename
    poseFolder := p.poseFolder
    poseIndex := k
    seed := env.seed k
    batchId := p.batchId }

/-- The submission loop (app.py lines 316-336), from position `k`, `n` items
remaining.  Per iteration: instantiate the workflow (a raised `KeyError`
aborts), POST it (a raised request error aborts), and append `prompt_id` to
`prompt_ids` only when the response body contains one — otherwise the item is
silently skipped and the loop continues. -/
def submitFrom (template : Json) (env : Env) (p : BatchParams) :
    Nat → Nat → Except String (List String)
  | _, 0 => .ok []
  | k, n + 1 =>
      match configureWorkflow template (itemBindings p env k) with
      | .error e => .error e
      | .ok _ =>
          match env.submit k with
          | .httpError => .error "HTTPError"
          | .okNoId => submitFrom template env p (k + 1) n
          | .okId pid =>
              match submitFrom template env p (k + 1) n with
              | .error e => .error e
              | .ok rest => .ok (pid :: rest)

/-- Poll ceiling: `max_attempts = 60` (app.py line 347). -/
def maxAttempts : Nat := 60

/-- Sleep before each status query: `time.sleep(5)` (app.py line 356). -/
def pollInterval : Nat := 5

/-- The poll loop body for one item (app.py lines 355-384), with `attempt` the
number of attempts already consumed and `fuel = maxAttempts - attempt`.
Each iteration sleeps, increments `attempt`, then queries; a raised transport
or decode error is swallowed (`except: continue`) and the loop proceeds with
the incremented counter; a completed history breaks out carrying the first
output filename (possibly absent).  Returns the extracted filename (if any)
and the number of attempts consumed. -/
def pollGo (poll : Nat → PollOutcome) : Nat → Nat → Option String × Nat
  | attempt, 0 => (none, attempt)
  | attempt, fuel + 1 =>
      match poll (attempt + 1) with
      | .complete fn => (fn, attempt + 1)
      | .notComplete => pollGo poll (attempt + 1) fuel
      | .error => pollGo poll (attempt + 1) fuel

/-- Polling one item from `attempt = 0` with the full budget. -/
def pollItem (poll : Nat → PollOutcome) : Option String × Nat :=
  pollGo poll 0 maxAttempts

/-- The convention-recomputed download filename of the batch path
(app.py line 395): `actual_filename = f"{batch_id}_pose{idx + 1}_00001_.png"`. -/
def actualDownloadFilename (batchId : String) (idx : Nat) : String :=
  batchId ++ "_pose" ++ toString (idx + 1) ++ "_00001_.png"

/-- Filename the batch download path requests, given everything in scope at
app.py lines 393-398: the batch id, the `prompt_ids` index, and the
`output_filename` extracted from the status response (which the code leaves
unused, recomputing the name by convention instead). -/
def batchDownloadRequest (batchId : String) (idx : Nat) (reported : String) : String :=
  actualDownloadFilename batchId idx

/-- File the single pose-transfer path downloads (app.py lines 625-652): it
fetches `/workspace/ComfyUI/output/{output_filename}`, i.e. exactly the
filename returned by the status query. -/
def singleDownloadFilename (reported : String) : String := reported

/-- Storage path of a completed output (app.py line 407):
`storage_path = f"pose_transfers/{batch_id}_pose{idx + 1}.png"`. -/
def storagePath (batchId : String) (idx : Nat) : String :=
  "pose_transfers/" ++ batchId ++ "_pose" ++ toString (idx + 1) ++ ".png"

/-- The poll-and-download loop over `enumerate(prompt_ids)`
(app.py lines 350-424).  An item whose poll budget is exhausted (or whose
completed history carried no filename) is skipped; a download/storage error is
caught and the item skipped; otherwise the stored file's public URL is
appended to `completed_images`. -/
def downloadLoop (env : Env) (batchId : String) : Nat → List String → List String
  | _, [] => []
  | idx, _pid :: rest =>
      match (pollItem (env.poll idx)).1 with
      | none => downloadLoop env batchId (idx + 1) rest
      | some reported =>
          match env.download idx (batchDownloadRequest batchId idx reported) with
          | .error => downloadLoop env batchId (idx + 1) rest
          | .ok => env.publicUrl (storagePath batchId idx) ::
              downloadLoop env batchId (idx + 1) rest

/-- The `comfyui_batches` record as far as the claims observe it. -/
structure BatchResult where
  status : String
  completedImages : List String
  errorMessage : Option String

/-- Database writes performed by `approve_edit`, in order. -/
inductive DbOp where
  | editUpdate (status : String) (hasApprovedAt : Bool)
  | batchInsert (status : String)
  | batchUpdate (status : String) (error : Option String)

/-- The batch run of `approve_edit` (the `try` block at app.py lines 252-468)
for `n` snapshotted sibling items, returning the `comfyui_batches` writes it
performs and the final record state.  Shared-setup and submission exceptions
reach the outer `except` (line 455), which marks the batch `failed` with the
error string; otherwise the poll-and-download loop runs to completion and the
final status is `completed` when `completed_images` is non-empty (lines
427-441) and `failed` with an error message when it is empty (lines 442-453). -/
def runBatchOps (template : Json) (env : Env) (p : BatchParams) (n : Nat) :
    List DbOp × BatchResult :=
  match env.setupError with
  | some e => ([.batchUpdate "failed" (some e)],
      { status := "failed", completedImages := [], errorMessage := some e })
  | none =>
      match submitFrom template env p 0 n with
      | .error e => ([.batchUpdate "failed" (some e)],
          { status := "failed", completedImages := [], errorMessage := some e })
      | .ok promptIds =>
          let completed := downloadLoop env p.batchId 0 promptIds
          if completed.isEmpty then
            ([.batchUpdate "processing" none,
              .batchUpdate "failed" (some "All workflows timed out or failed")],
             { status := "failed", completedImages := [],
               errorMessage := some "All workflows timed out or failed" })
          else
            ([.batchUpdate "processing" none, .batchUpdate "completed" none],
             { status := "completed", completedImages := completed,
               errorMessage := none })

/-- Final state of the batch record after the run. -/
def runBatch (template : Json) (env : Env) (p : BatchParams) (n : Nat) : BatchResult :=
  (runBatchOps template env p n).2

/-- The JSON payload `approve_edit` responds with, as far as the claims
observe it. -/
inductive ApproveResult where
  | noBatch (success : Bool) (message : String)
  | batch (r : BatchResult)

/-- `approve_edit` (app.py lines 203-468): first the edit record is updated to
`approved` with an approval timestamp (lines 217-221); with zero sibling
items the endpoint returns success with an explanatory message before any
batch record is created (lines 234-238); otherwise the `comfyui_batches`
record is inserted with status `processing` (lines 240-250) and the batch run
proceeds. -/
def approveEdit (template : Json) (env : Env) (p : BatchParams)
    (items : List Item) : List DbOp × ApproveResult :=
  if items.isEmpty then
    ([.editUpdate "approved" true],
     .noBatch true "Edit approved! No other images to process.")
  else
    let (ops, r) := runBatchOps template env p items.length
    (.editUpdate "approved" true :: .batchInsert "processing" :: ops, .batch r)

/-- Does a database write touch the `edit_tests` record? -/
def DbOp.isEditWrite : DbOp → Bool
  | .editUpdate _ _ => true
  | _ => false

/-- Does a database write create a `comfyui_batches` record? -/
def DbOp.isBatchInsert : DbOp → Bool
  | .batchInsert _ => true
  | _ => false

mutual
/-- `json.loads(json.dumps(·))` is the identity on JSON values: the copy the
loop body mutates has the same value as the template, and the template value
itself is never altered by an instantiation. -/
theorem deepCopy_id : (j : Json) → deepCopy j = j
  | .str _ => rfl
  | .num _ => rfl
  | .bool _ => rfl
  | .null => rfl
  | .arr elems => by rw [deepCopy, deepCopyList_id elems]
  | .obj fields => by rw [deepCopy, deepCopyFields_id fields]

theorem deepCopyList_id : (xs : List Json) → deepCopyList xs = xs
  | [] => rfl
  | x :: xs => by rw [deepCopyList, deepCopy_id x, deepCopyList_id xs]

theorem deepCopyFields_id : (fs : List (String × Json)) → deepCopyFields fs = fs
  | [] => rfl
  | (k, v) :: fs => by rw [deepCopyFields, deepCopy_id v, deepCopyFields_id fs]
end

/-- The job identifier a submission outcome records, if any. -/
def submitId : SubmitOutcome → Option String
  | .okId pid => some pid
  | _ => none

/-- A successful submission pass collects, in snapshot order, exactly the
`prompt_id`s of the positions whose response carried one. -/
theorem submitFrom_ok_eq {template : Json} {env : Env} {p : BatchParams}
    {n k : Nat} {ids : List String}
    (h : submitFrom template env p k n = .ok ids) :
    ids = (List.range' k n).filterMap (fun q => submitId (env.submit q)) := by
  induction n generalizing k ids with
  | zero =>
      unfold submitFrom at h
      injection h with h
      simp [← h, List.range']
  | succ m ih =>
      unfold submitFrom at h
      cases hc : configureWorkflow template (itemBindings p env k) with
      | error e => simp only [hc] at h; exact Except.noConfusion h
      | ok w =>
          simp only [hc] at h
          cases hs : env.submit k with
          | httpError => simp only [hs] at h; exact Except.noConfusion h
          | okNoId =>
              simp only [hs] at h
              rw [ih h, List.range'_succ, List.filterMap_cons]
              simp [submitId, hs]
          | okId pid =>
              simp only [hs] at h
              cases hr : submitFrom template env p (k + 1) m with
              | error e => simp only [hr] at h; exact Except.noConfusion h
              | ok rest =>
                  simp only [hr] at h
                  injection h with h
                  rw [← h, List.range'_succ, List.filterMap_cons, ih hr]
                  simp [submitId, hs]

/-- At most one job identifier is collected per sibling item. -/
theorem submitFrom_length_le {template : Json} {env : Env} {p : BatchParams}
    {n k : Nat} {ids : List String}
    (h : submitFrom template env p k n = .ok ids) : ids.length ≤ n := by
  rw [submitFrom_ok_eq h]
  calc ((List.range' k n).filterMap _).length
      ≤ (List.range' k n).length := List.length_filterMap_le _ _
    _ = n := List.length_range' _ _ _

/-- The download loop appends at most one completed image per submitted job. -/
theorem downloadLoop_length_le (env : Env) (batchId : String) :
    ∀ (l : List String) (idx : Nat),
    (downloadLoop env batchId idx l).length ≤ l.length := by
  intro l
  induction l with
  | nil => intro idx; simp [downloadLoop]
  | cons hd tl ih =>
      intro idx
      unfold downloadLoop
      cases (pollItem (env.poll idx)).1 with
      | none =>
          dsimp only
          exact le_trans (ih (idx + 1)) (Nat.le_succ _)
      | some reported =>
          dsimp only
          cases env.download idx (batchDownloadRequest batchId idx reported) with
          | error =>
              dsimp only
              exact le_trans (ih (idx + 1)) (Nat.le_succ _)
          | ok =>
              dsimp only
              simpa using Nat.succ_le_succ (ih (idx + 1))

/-- The poll loop consumes at most `fuel` further attempts. -/
theorem pollGo_attempts_le (poll : Nat → PollOutcome) :
    ∀ (fuel attempt : Nat), (pollGo poll attempt fuel).2 ≤ attempt + fuel := by
  intro fuel
  induction fuel with
  | zero => intro a; simp [pollGo]
  | succ f ih =>
      intro a
      unfold pollGo
      cases poll (a + 1) with
      | complete fn => dsimp only; omega
      | notComplete => dsimp only; have := ih (a + 1); omega
      | error => dsimp only; have := ih (a + 1); omega

/-- `filterMap` over an initial segment of the naturals keeps at most one
element per position. -/
theorem filterMap_range_length_le {α : Type} (f : Nat → Option α) (n : Nat) :
    ((List.range n).filterMap f).length ≤ n := by
  calc ((List.range n).filterMap f).length
      ≤ (List.range n).length := List.length_filterMap_le _ _
    _ = n := List.length_range n

/-- `filterMap` over `range n` has full length exactly when every position
produces a value. -/
theorem filterMap_range_length_eq_iff {α : Type} (f : Nat → Option α) :
    ∀ n : Nat, (((List.range n).filterMap f).length = n ↔
      ∀ q, q < n → (f q).isSome) := by
  intro n
  induction n with
  | zero => simp
  | succ m ih =>
      have hle := filterMap_range_length_le f m
      rw [List.range_succ, List.filterMap_append, List.length_append]
      cases hf : f m with
      | none =>
          simp only [List.filterMap_cons, hf, List.filterMap_nil, List.length_nil]
          constructor
          · intro h; omega
          · intro h
            have hsome := h m (Nat.lt_succ_self m)
            rw [hf] at hsome
            simp at hsome
      | some a =>
          simp only [List.filterMap_cons, hf, List.filterMap_nil, List.length_cons,
            List.length_nil]
          constructor
          · intro h q hq
            rcases Nat.lt_succ_iff_lt_or_eq.mp hq with hq' | hq'
            · exact (ih.mp (by omega)) q hq'
            · subst hq'; simp [hf]
          · intro h
            have hm : ((List.range m).filterMap f).length = m :=
              ih.mpr (fun q hq => h q (Nat.lt_succ_of_lt hq))
            omega

/-- Position of the value produced at `p` within `filterMap` over `range n`:
it sits at the index counting the producing positions before `p`. -/
theorem filterMap_range_getElem {α : Type} (f : Nat → Option α) :
    ∀ (n p : Nat) (a : α), p < n → f p = some a →
    ((List.range n).filterMap f)[((List.range p).filterMap f).length]? = some a := by
  intro n
  induction n with
  | zero => intro p a hp _; omega
  | succ m ih =>
      intro p a hp hf
      rw [List.range_succ, List.filterMap_append]
      rcases Nat.lt_succ_iff_lt_or_eq.mp hp with hp' | hp'
      · have h1 := ih p a hp' hf
        have hlt : ((List.range p).filterMap f).length <
            ((List.range m).filterMap f).length := by
          rcases List.getElem?_eq_some.mp h1 with ⟨hbound, _⟩
          exact hbound
        rw [List.getElem?_append, if_pos hlt]
        exact h1
      · subst hp'
        rw [List.getElem?_append, if_neg (lt_irrefl _)]
        simp [List.filterMap_cons, hf]

/-- A node of the required shape: an object with an `inputs` object. -/
def mkNode : Json := .obj [("inputs", .obj [])]

/-- A minimal workflow template containing the five bound nodes.  Note none of
the leaf slot keys (`unet_name`, `image`, `seed`, `filename_prefix`) exist in
it: only the node keys and their `inputs` objects do. -/
def sampleTemplate : Json :=
  .obj [("67", mkNode), ("78", mkNode), ("179", mkNode), ("74", mkNode), ("94", mkNode)]

/-- Concrete shared parameters for witnesses. -/
def sampleParams : BatchParams :=
  { modelFilename := "model_ab12cd34.jpg", poseFolder := "pose_ab12cd34",
    batchId := "B1" }

/-- An environment in which every external call succeeds. -/
def envAllOk : Env :=
  { setupError := none
    seed := fun _ => 42
    submit := fun k => .okId ("prompt-" ++ toString k)
    poll := fun _ _ => .complete (some "ComfyUI_00001_.png")
    download := fun _ _ => .ok
    publicUrl := fun s => s }

/-- Like `envAllOk`, but the submission POST for the first item raises. -/
def envSubmitFail : Env :=
  { envAllOk with
    submit := fun k => if k = 0 then .httpError else .okId "prompt-1" }

/-- Like `envAllOk`, but the submission response for the first item carries no
`prompt_id`. -/
def envNoId : Env :=
  { envAllOk with
    submit := fun k => if k = 0 then .okNoId else .okId "prompt-1" }

/-- Like `envAllOk`, but every status query raises a transport error. -/
def envPollErr : Env :=
  { envAllOk with poll := fun _ _ => .error }

/-- Exhaustive description of the final batch record: either some raised error
marked the batch failed with that error recorded and no completed images, or
the download loop ran and produced a non-empty completed list with status
`completed`, or it produced an empty list and the batch failed with the
timeout message. -/
theorem runBatch_cases (template : Json) (env : Env) (p : BatchParams) (n : Nat) :
    (∃ e, runBatch template env p n =
        { status := "failed", completedImages := [], errorMessage := some e }) ∨
    (∃ ids, submitFrom template env p 0 n = .ok ids ∧
        downloadLoop env p.batchId 0 ids ≠ [] ∧
        runBatch template env p n =
          { status := "completed",
            completedImages := downloadLoop env p.batchId 0 ids,
            errorMessage := none }) := by
  unfold runBatch runBatchOps
  cases env.setupError with
  | some e => exact .inl ⟨e, rfl⟩
  | none =>
      dsimp only
      cases hsub : submitFrom template env p 0 n with
      | error e => exact .inl ⟨e, rfl⟩
      | ok ids =>
          dsimp only
          by_cases hemp : (downloadLoop env p.batchId 0 ids).isEmpty = true
          · rw [if_pos hemp]
            exact .inl ⟨_, rfl⟩
          · rw [if_neg hemp]
            refine .inr ⟨ids, rfl, ?_, rfl⟩
            intro hnil
            rw [hnil] at hemp
            exact hemp rfl

/-- None of the batch-phase database writes touches the `edit_tests` record. -/
theorem runBatchOps_no_editWrite (template : Json) (env : Env) (p : BatchParams)
    (n : Nat) :
    ((runBatchOps template env p n).1).all (fun op => !op.isEditWrite) = true := by
  unfold runBatchOps
  cases env.setupError with
  | some e => rfl
  | none =>
      dsimp only
      cases submitFrom template env p 0 n with
      | error e => rfl
      | ok ids =>
          dsimp only
          by_cases hemp : (downloadLoop env p.batchId 0 ids).isEmpty = true
          · rw [if_pos hemp]; rfl
          · rw [if_neg hemp]; rfl

/-- C1: for an approved edit with `n > 0` sibling items, the batch run ends
with `completed_images` of length between 0 and `n`; the final status is
`failed` exactly when that list is empty; a non-empty list yields status
`completed` even when fewer than `n` items produced output; and every failed
outcome records an error detail string. -/
theorem c1_batch_final_status (template : Json) (env : Env) (p : BatchParams)
    (n : Nat) (hn : 0 < n) :
    (runBatch template env p n).completedImages.length ≤ n ∧
    ((runBatch template env p n).status = "failed" ↔
      (runBatch template env p n).completedImages.length = 0) ∧
    ((runBatch template env p n).completedImages ≠ [] →
      (runBatch template env p n).status = "completed") ∧
    ((runBatch template env p n).status = "failed" →
      (runBatch template env p n).errorMessage ≠ none) := by
  rcases runBatch_cases template env p n with ⟨e, hr⟩ | ⟨ids, hsub, hne, hr⟩
  · rw [hr]
    exact ⟨Nat.zero_le n, by simp, by simp, by simp⟩
  · rw [hr]
    refine ⟨?_, ?_, ?_, ?_⟩
    · exact le_trans (downloadLoop_length_le env p.batchId ids 0)
        (submitFrom_length_le hsub)
    · constructor
      · intro h; simp at h
      · intro h; exact absurd (List.length_eq_zero.mp h) hne
    · intro _; rfl
    · intro h; simp at h

/-- C1 witness: the theorem applied to a fully successful two-sibling run. -/
theorem c1_batch_final_status_witness :
    0 < 2 ∧
    ((runBatch sampleTemplate envAllOk sampleParams 2).completedImages.length ≤ 2 ∧
     ((runBatch sampleTemplate envAllOk sampleParams 2).status = "failed" ↔
       (runBatch sampleTemplate envAllOk sampleParams 2).completedImages.length = 0) ∧
     ((runBatch sampleTemplate envAllOk sampleParams 2).completedImages ≠ [] →
       (runBatch sampleTemplate envAllOk sampleParams 2).status = "completed") ∧
     ((runBatch sampleTemplate envAllOk sampleParams 2).status = "failed" →
       (runBatch sampleTemplate envAllOk sampleParams 2).errorMessage ≠ none)) :=
  ⟨by decide, c1_batch_final_status sampleTemplate envAllOk sampleParams 2 (by decide)⟩

/-- C2 counterexample: with two siblings, an HTTP error raised by the first
item's submission POST aborts the whole batch — it is marked `failed` with no
completed images even though the second item's submission, poll and download
would all have succeeded (as the contrast run in the same environment but
with a successful first submission shows).  The claim predicted the failure
would be logged, the item skipped, and subsequent submissions would proceed. -/
theorem c2_counterexample :
    runBatch sampleTemplate envSubmitFail sampleParams 2 =
      { status := "failed", completedImages := [],
        errorMessage := some "HTTPError" } ∧
    runBatch sampleTemplate envAllOk sampleParams 2 =
      { status := "completed",
        completedImages := [storagePath "B1" 0, storagePath "B1" 1],
        errorMessage := none } :=
  ⟨rfl, rfl⟩

/-- C2 amended: a submission *response* that lacks a job identifier is
skipped silently — no identifier is recorded and the loop proceeds to the
next item; but a failure of the submission call itself (transport/HTTP
error, `requests.post` / `raise_for_status` raising) aborts the submission
loop — and with it the batch — rather than skipping that item. -/
theorem c2_amended (template : Json) (env : Env) (p : BatchParams) (k n : Nat)
    {w : Json} (hw : configureWorkflow template (itemBindings p env k) = .ok w) :
    (env.submit k = .okNoId →
      submitFrom template env p k (n + 1) = submitFrom template env p (k + 1) n) ∧
    (env.submit k = .httpError →
      submitFrom template env p k (n + 1) = .error "HTTPError") := by
  constructor
  · intro hs
    conv_lhs => rw [submitFrom]
    simp only [hw, hs]
  · intro hs
    conv_lhs => rw [submitFrom]
    simp only [hw, hs]

/-- C2 amended, witness: in `envNoId` the first item's response has no
`prompt_id`; the submission pass skips it and continues with the second. -/
theorem c2_amended_witness :
    envNoId.submit 0 = .okNoId ∧
    submitFrom sampleTemplate envNoId sampleParams 0 2 =
      submitFrom sampleTemplate envNoId sampleParams 1 1 :=
  ⟨rfl, (c2_amended sampleTemplate envNoId sampleParams 0 1 rfl).1 rfl⟩

/-- C3: the completion poller performs at most `maxAttempts = 60` status
queries per item at `pollInterval = 5` seconds of sleep before each, so the
per-item wall-clock budget is bounded by `interval × ceiling`; a transport or
decode error during one attempt consumes exactly that attempt — the loop
continues with the incremented counter, never resetting or aborting; and an
item whose budget is exhausted without a filename is skipped while the
download loop continues with the remaining items. -/
theorem c3_poller_bounded (poll : Nat → PollOutcome) (a f : Nat) (env : Env)
    (batchId : String) (idx : Nat) (pid : String) (rest : List String) :
    maxAttempts = 60 ∧ pollInterval = 5 ∧
    (pollItem poll).2 ≤ maxAttempts ∧
    pollInterval * (pollItem poll).2 ≤ pollInterval * maxAttempts ∧
    (poll (a + 1) = .error → pollGo poll a (f + 1) = pollGo poll (a + 1) f) ∧
    ((pollItem (env.poll idx)).1 = none →
      downloadLoop env batchId idx (pid :: rest) =
        downloadLoop env batchId (idx + 1) rest) := by
  have hbound : (pollItem poll).2 ≤ maxAttempts := by
    have := pollGo_attempts_le poll maxAttempts 0
    simpa [pollItem] using this
  refine ⟨rfl, rfl, hbound, Nat.mul_le_mul_left _ hbound, ?_, ?_⟩
  · intro he
    conv_lhs => rw [pollGo]
    simp only [he]
  · intro hn
    conv_lhs => rw [downloadLoop]
    simp only [hn]

/-- C3 witness: with every query raising a transport error, an error at the
first attempt consumes it (the loop continues at attempt 1 with one unit of
budget less), the total attempt count stays within the ceiling, and the item
is skipped while the loop moves on. -/
theorem c3_poller_bounded_witness :
    (pollItem (fun _ => PollOutcome.error)).2 ≤ maxAttempts ∧
    pollGo (fun _ => PollOutcome.error) 0 60 = pollGo (fun _ => PollOutcome.error) 1 59 ∧
    downloadLoop envPollErr "B1" 0 ["p0"] = downloadLoop envPollErr "B1" 1 [] :=
  ⟨(c3_poller_bounded (fun _ => PollOutcome.error) 0 59 envPollErr "B1" 0 "p0" []).2.2.1,
   (c3_poller_bounded (fun _ => PollOutcome.error) 0 59 envPollErr "B1" 0 "p0" []).2.2.2.2.1 rfl,
   (c3_poller_bounded (fun _ => PollOutcome.error) 0 59 envPollErr "B1" 0 "p0" []).2.2.2.2.2 rfl⟩

/-- Concrete bindings used to exercise instantiation on `sampleTemplate`. -/
def cexBindings : BatchBindings :=
  { modelFilename := "model_cex.jpg", poseFolder := "pose_cex", poseIndex := 0,
    seed := 7, batchId := "B2" }

/-- C4 counterexample: in `sampleTemplate` the bound slot key `seed` does not
exist in node `74`'s inputs (nor do any of the other leaf slot keys), yet
instantiation succeeds — Python dict assignment silently creates a missing
leaf slot instead of raising a configuration error.  Only a missing *node*
key (or `inputs` map) raises. -/
theorem c4_counterexample :
    getNodeInput sampleTemplate "74" "seed" = none ∧
    (configureWorkflow sampleTemplate cexBindings).isOk = true :=
  ⟨rfl, rfl⟩

/-- C4 amended: binding fails with a raised `KeyError` when a bound *node*
key (here the first one bound, `"67"`) does not exist in the template, and
that failure is fatal to the whole batch: with the shared setup succeeding
and at least one sibling, the batch ends `failed` with the error recorded
and no completed images, not as a per-item skip.  (A missing leaf slot name
under an existing node is instead silently created — `c4_counterexample`.) -/
theorem c4_amended (fields : List (String × Json)) (env : Env) (p : BatchParams)
    (n : Nat) (hn : 0 < n) (hmiss : lookupField fields "67" = none)
    (hsetup : env.setupError = none) :
    runBatch (.obj fields) env p n =
      { status := "failed", completedImages := [],
        errorMessage := some ("KeyError: " ++ "67") } := by
  obtain ⟨m, rfl⟩ : ∃ m, n = m + 1 := ⟨n - 1, by omega⟩
  have hsub : submitFrom (.obj fields) env p 0 (m + 1) =
      .error ("KeyError: " ++ "67") := by
    conv_lhs => rw [submitFrom]
    rw [configureWorkflow_missing_node fields (itemBindings p env 0) hmiss]
  unfold runBatch runBatchOps
  rw [hsetup]
  dsimp only
  rw [hsub]

/-- C4 amended, witness: an empty template object with one sibling item. -/
theorem c4_amended_witness :
    0 < 1 ∧ lookupField [] "67" = none ∧ envAllOk.setupError = none ∧
    runBatch (.obj []) envAllOk sampleParams 1 =
      { status := "failed", completedImages := [],
        errorMessage := some ("KeyError: " ++ "67") } :=
  ⟨by decide, rfl, rfl, c4_amended [] envAllOk sampleParams 1 (by decide) rfl rfl⟩

/-- C5: instantiation is side-effect-isolated.  The source deep-copies the
template (`json.loads(json.dumps(...))` — the identity on values, first
conjunct), so each instantiated graph is built from the template value alone:
when two instantiations of the same template with different bindings both
succeed, the bound values of the first graph are exactly the first bindings'
values — fixed by `template` and `b₁` alone, hence unchanged by performing
the second instantiation — and the template value itself is never altered. -/
theorem c5_instantiation_isolated (template : Json) (b₁ b₂ : BatchBindings)
    (w₁ w₂ : Json) (h₁ : configureWorkflow template b₁ = .ok w₁)
    (h₂ : configureWorkflow template b₂ = .ok w₂) :
    deepCopy template = template ∧
    (getNodeInput w₁ "78" "image" = some (.str b₁.modelFilename) ∧
     getNodeInput w₁ "179" "image" =
       some (.str (b₁.poseFolder ++ "/pose" ++ toString (b₁.poseIndex + 1) ++ ".jpg")) ∧
     getNodeInput w₁ "74" "seed" = some (.num b₁.seed) ∧
     getNodeInput w₁ "94" "filename_prefix" =
       some (.str (b₁.batchId ++ "_pose" ++ toString (b₁.poseIndex + 1)))) :=
  ⟨deepCopy_id template, configureWorkflow_binds h₁⟩

/-- First concrete bindings for the C5 witness. -/
def bA : BatchBindings :=
  { modelFilename := "mA.jpg", poseFolder := "pfA", poseIndex := 0, seed := 11,
    batchId := "BA" }

/-- Second concrete bindings for the C5 witness. -/
def bB : BatchBindings :=
  { modelFilename := "mB.jpg", poseFolder := "pfB", poseIndex := 1, seed := 22,
    batchId := "BB" }

/-- The graph instantiated from `sampleTemplate` with `bA`. -/
def wA : Json := (configureWorkflow sampleTemplate bA).toOption.getD .null

/-- The graph instantiated from `sampleTemplate` with `bB`. -/
def wB : Json := (configureWorkflow sampleTemplate bB).toOption.getD .null

/-- C5 witness: two concrete instantiations of `sampleTemplate`. -/
theorem c5_instantiation_isolated_witness :
    deepCopy sampleTemplate = sampleTemplate ∧
    (getNodeInput wA "78" "image" = some (.str bA.modelFilename) ∧
     getNodeInput wA "179" "image" =
       some (.str (bA.poseFolder ++ "/pose" ++ toString (bA.poseIndex + 1) ++ ".jpg")) ∧
     getNodeInput wA "74" "seed" = some (.num bA.seed) ∧
     getNodeInput wA "94" "filename_prefix" =
       some (.str (bA.batchId ++ "_pose" ++ toString (bA.poseIndex + 1)))) :=
  c5_instantiation_isolated sampleTemplate bA bB wA wB rfl rfl

/-- C6: order preservation across the two phases.  The upload phase assigns
the item at snapshot position `k` the remote name `pose{k+1}.jpg` inside the
shared pose folder, and any successful instantiation for position `k` binds
node `179`'s `image` input to exactly that path — so the upload and
submission phases agree on the item-to-filename correspondence in the
caller-given order. -/
theorem c6_position_filename_agreement (poseFolder : String) (items : List Item)
    (k : Nat) (it : Item) (hit : items[k]? = some it) :
    (uploadPoses poseFolder items)[k]? =
      some (it, poseFolder ++ "/" ++ uploadedPoseName k) ∧
    (∀ (template : Json) (b : BatchBindings) (w : Json),
      b.poseFolder = poseFolder → b.poseIndex = k →
      configureWorkflow template b = .ok w →
      getNodeInput w "179" "image" =
        some (.str (poseFolder ++ "/" ++ uploadedPoseName k))) := by
  have hstr : poseFolder ++ "/pose" ++ toString (k + 1) ++ ".jpg" =
      poseFolder ++ "/" ++ uploadedPoseName k := by
    unfold uploadedPoseName
    simp only [String.append_assoc]
    congr 1
  constructor
  · simp [uploadPoses, uploadPosesFrom_getElem?, hit]
  · intro template b w hf hk hw
    obtain ⟨_, h179, _, _⟩ := configureWorkflow_binds hw
    rw [hf, hk] at h179
    rw [h179, hstr]

/-- Concrete bindings for snapshot position 1 in the C6 witness. -/
def bC : BatchBindings := itemBindings sampleParams envAllOk 1

/-- The graph instantiated for position 1 in the C6 witness. -/
def wC : Json := (configureWorkflow sampleTemplate bC).toOption.getD .null

/-- Two concrete snapshot items for the C6 witness. -/
def sampleItems : List Item :=
  [ { id := "img-2", url := "https://cdn.example/2.jpg", order := 2 },
    { id := "img-3", url := "https://cdn.example/3.jpg", order := 3 } ]

/-- C6 witness: position 1 of a concrete two-item snapshot. -/
theorem c6_position_filename_agreement_witness :
    (uploadPoses "pose_ab12cd34" sampleItems)[1]? =
      some ({ id := "img-3", url := "https://cdn.example/3.jpg", order := 3 },
        "pose_ab12cd34" ++ "/" ++ uploadedPoseName 1) ∧
    getNodeInput wC "179" "image" =
      some (.str ("pose_ab12cd34" ++ "/" ++ uploadedPoseName 1)) :=
  ⟨(c6_position_filename_agreement "pose_ab12cd34" sampleItems 1
      { id := "img-3", url := "https://cdn.example/3.jpg", order := 3 } rfl).1,
   (c6_position_filename_agreement "pose_ab12cd34" sampleItems 1
      { id := "img-3", url := "https://cdn.example/3.jpg", order := 3 } rfl).2
     sampleTemplate bC wC rfl rfl rfl⟩

/-- C7: with zero sibling items, the approval action short-circuits before
any batch work: it answers success with an explanatory message, and the only
database write is the edit-status update — no `comfyui_batches` record is
ever created. -/
theorem c7_zero_siblings (template : Json) (env : Env) (p : BatchParams) :
    approveEdit template env p [] =
      ([DbOp.editUpdate "approved" true],
       .noBatch true "Edit approved! No other images to process.") ∧
    ((approveEdit template env p []).1.all (fun op => !op.isBatchInsert)) = true :=
  ⟨rfl, rfl⟩

/-- C8: the two download paths choose the output filename differently.  The
batch path's request is the convention-recomputed `{batchId}_pose{n}_00001_.png`,
ignoring the filename extracted from the status response (first and third
conjuncts), while the single pose-transfer path fetches exactly the reported
filename (second conjunct); at a concrete reported filename the two choices
disagree (fourth conjunct), so the paths are not equivalent in filename
selection. -/
theorem c8_download_filename_selection :
    (∀ (batchId : String) (idx : Nat) (r₁ r₂ : String),
      batchDownloadRequest batchId idx r₁ = batchDownloadRequest batchId idx r₂) ∧
    (∀ r : String, singleDownloadFilename r = r) ∧
    (∀ (batchId : String) (idx : Nat) (r : String),
      batchDownloadRequest batchId idx r = actualDownloadFilename batchId idx) ∧
    batchDownloadRequest "B1" 0 "ComfyUI_00042_.png" ≠
      singleDownloadFilename "ComfyUI_00042_.png" := by
  refine ⟨fun _ _ _ _ => rfl, fun _ => rfl, fun _ _ _ => rfl, ?_⟩
  decide

/-- For the item at snapshot position `pos`: the number of earlier positions
whose submission response carried a job identifier.  This is the index the
item's own identifier occupies in `prompt_ids`, which the download phase uses
as the position number in `actual_filename` and `storage_path`. -/
def downloadIndex (env : Env) (pos : Nat) : Nat :=
  ((List.range pos).filterMap (fun q => submitId (env.submit q))).length

/-- C9: the position number used by the download phase for the item at
snapshot position `pos` is its index in `prompt_ids` — the count of earlier
positions whose submission returned an identifier — not `pos` itself.  The
download filename and storage path use that index plus one; the index never
exceeds `pos`, equals `pos` exactly when every earlier submission returned an
identifier, and drops strictly below `pos` as soon as some earlier submission
recorded none. -/
theorem c9_download_position_shift (template : Json) (env : Env) (p : BatchParams)
    (n pos : Nat) (j : String) (ids : List String)
    (hpos : pos < n) (hj : env.submit pos = .okId j)
    (hsub : submitFrom template env p 0 n = .ok ids) :
    ids[downloadIndex env pos]? = some j ∧
    batchDownloadRequest p.batchId (downloadIndex env pos) j =
      p.batchId ++ "_pose" ++ toString (downloadIndex env pos + 1) ++ "_00001_.png" ∧
    storagePath p.batchId (downloadIndex env pos) =
      "pose_transfers/" ++ p.batchId ++ "_pose" ++
        toString (downloadIndex env pos + 1) ++ ".png" ∧
    downloadIndex env pos ≤ pos ∧
    (downloadIndex env pos = pos ↔ ∀ q, q < pos → ∃ j', env.submit q = .okId j') ∧
    ((∃ q, q < pos ∧ submitId (env.submit q) = none) →
      downloadIndex env pos < pos) := by
  have hiff : ∀ q, (submitId (env.submit q)).isSome = true ↔
      ∃ j', env.submit q = .okId j' := by
    intro q
    cases hq : env.submit q <;> simp [submitId]
  have hids : ids = (List.range n).filterMap (fun q => submitId (env.submit q)) := by
    rw [submitFrom_ok_eq hsub, List.range_eq_range']
  have hle : downloadIndex env pos ≤ pos := filterMap_range_length_le _ pos
  have hiff2 : downloadIndex env pos = pos ↔
      ∀ q, q < pos → ∃ j', env.submit q = .okId j' := by
    unfold downloadIndex
    rw [filterMap_range_length_eq_iff]
    constructor
    · intro h q hq; exact (hiff q).mp (h q hq)
    · intro h q hq; exact (hiff q).mpr (h q hq)
  refine ⟨?_, rfl, rfl, hle, hiff2, ?_⟩
  · rw [hids]
    exact filterMap_range_getElem _ n pos j hpos (by simp [submitId, hj])
  · rintro ⟨q, hq, hnone⟩
    rcases Nat.lt_or_ge (downloadIndex env pos) pos with h | h
    · exact h
    · exfalso
      have heq : downloadIndex env pos = pos := le_antisymm hle h
      rcases (hiff2.mp heq) q hq with ⟨j', hj'⟩
      rw [hj'] at hnone
      simp [submitId] at hnone

/-- C9 witness: in `envNoId` the submission at position 0 records no
identifier, so the item at position 1 is downloaded and stored under index 0
— strictly below its true snapshot position. -/
theorem c9_download_position_shift_witness :
    downloadIndex envNoId 1 < 1 ∧
    (["prompt-1"] : List String)[downloadIndex envNoId 1]? = some "prompt-1" :=
  ⟨(c9_download_position_shift sampleTemplate envNoId sampleParams 2 1 "prompt-1"
      ["prompt-1"] (by decide) rfl rfl).2.2.2.2.2 ⟨0, by decide, rfl⟩,
   (c9_download_position_shift sampleTemplate envNoId sampleParams 2 1 "prompt-1"
      ["prompt-1"] (by decide) rfl rfl).1⟩

/-- C10: the approval action's first database write sets the edit record to
`approved` (with an approval timestamp), before any batch work; no later
write of any outcome — zero siblings, shared-setup failure, submission abort,
all-items-failed, or success — touches the edit record again, so its status
remains `approved` and only the `comfyui_batches` record carries a failure.
The edit-status update and the batch outcome are thus not atomic. -/
theorem c10_edit_status_permanent (template : Json) (env : Env) (p : BatchParams)
    (items : List Item) :
    ∃ rest : List DbOp,
      (approveEdit template env p items).1 =
        DbOp.editUpdate "approved" true :: rest ∧
      rest.all (fun op => !op.isEditWrite) = true := by
  unfold approveEdit
  by_cases hi : items.isEmpty = true
  · rw [if_pos hi]
    exact ⟨[], rfl, rfl⟩
  · rw [if_neg hi]
    cases hro : runBatchOps template env p items.length with
    | mk ops r =>
        dsimp only
        refine ⟨DbOp.batchInsert "processing" :: ops, rfl, ?_⟩
        have hall := runBatchOps_no_editWrite template env p items.length
        rw [hro] at hall
        simpa [DbOp.isEditWrite] using hall

end AtlasReach
